import Mathlib

/-! Verification of the Secure Research Paper Submission & Peer-Review Portal.

This file shallowly embeds the portal's security core and proves/refutes the
spec's testable properties against it.  The repository contains two parallel
implementations:

* the `server` implementation (`src/server/index.js`, `src/server/utils.js`,
  the ACL module): AES-256-GCM hybrid encryption with per-recipient RSA-OAEP
  wrapped keys, an in-memory session key store, OTP with attempt lockout,
  login lockout, and SHA-256/RSA decision signatures;
* the `research-portal` implementation (`services/cryptoService.js`,
  `controllers/*.js`): AES-256-CBC plus an independent SHA-256 plaintext hash,
  single-keypair RSA, RSA-PSS decision signatures over a JSON serialization.

Cryptographic primitives are modelled symbolically (the standard perfect
cryptography assumption): AES-GCM is counter-mode XOR against a keystream with
a collision-free authentication tag over (key, iv, ciphertext); SHA-256 is a
collision-free hash; RSA wrap/unwrap and signatures succeed exactly when the
key pair matches.  All state-passing (the JSON file DB, the session key map,
OTP records) is made explicit.
-/

namespace Portal

/-- User identity (an email address), as used for DB keys throughout
`src/server/index.js`. -/
abbrev Email := String

/-- An RSA public key.  `keyId` identifies the key pair it belongs to
(`cryptoLib.generateRSAKeyPair` in `src/server/crypto` returns a fresh
matching pair). -/
structure PubKey where
  keyId : Nat
deriving DecidableEq, Repr

/-- An RSA private key, identified by the key pair it belongs to. -/
structure PrivKey where
  keyId : Nat
deriving DecidableEq, Repr

/-- Injective encoding of a byte list into a natural number.  Used to model
collision-free hashing/MACs (SHA-256, the GCM authentication tag): a real
hash is modelled as perfectly collision-free, the standard symbolic model. -/
def encodeBytes : List Nat → Nat
  | [] => 0
  | b :: bs => Nat.pair b (encodeBytes bs) + 1

theorem encodeBytes_injective : Function.Injective encodeBytes := by
  intro l₁ l₂ h
  induction l₁ generalizing l₂ with
  | nil =>
    cases l₂ with
    | nil => rfl
    | cons b bs => simp [encodeBytes] at h
  | cons a as ih =>
    cases l₂ with
    | nil => simp [encodeBytes] at h
    | cons b bs =>
      simp only [encodeBytes, Nat.add_right_cancel_iff] at h
      obtain ⟨h1, h2⟩ := Nat.pair_eq_pair.mp h
      exact h1 ▸ (ih h2) ▸ rfl

/-- UTF-8 bytes of a string, as produced by `Buffer.from(s, 'utf8')` (modelled
as the list of character code points). -/
def strBytes (s : String) : List Nat := s.data.map Char.toNat

theorem strBytes_injective : Function.Injective strBytes := by
  intro s₁ s₂ h
  apply String.ext
  apply List.map_injective_iff.mpr _ h
  intro c₁ c₂ hc
  have h1 : Char.ofNat c₁.toNat = Char.ofNat c₂.toNat := congrArg Char.ofNat hc
  rwa [Char.ofNat_toNat, Char.ofNat_toNat] at h1

/-- SHA-256 (`cryptoLib.sha256` in `src/server/utils.js`,
`hashSHA256` in `services/cryptoService.js`), modelled as a perfectly
collision-free hash of the input bytes. -/
def sha256 (buffer : List Nat) : Nat := encodeBytes buffer

theorem sha256_injective : Function.Injective sha256 := encodeBytes_injective

/-! Section: AES-256-GCM (`aesEncrypt`/`aesDecrypt` in `src/server/utils.js`)

GCM is counter-mode encryption plus a GHASH authentication tag.  The
keystream is modelled as an arbitrary fixed function of (key, iv, position);
the tag as a collision-free MAC of (key, iv, ciphertext). -/

/-- One keystream byte for (key, iv) at byte position `i` (AES-CTR inside
GCM).  The concrete formula is an arbitrary stand-in for the AES block
cipher; only invertibility of the XOR matters. -/
def keystream (key iv i : Nat) : Nat := (key * 131 + iv * 257 + i * 97 + 31) % 256

/-- XOR a byte list against the (key, iv) keystream starting at position `i`.
Applying it twice with the same arguments is the identity. -/
def ctrXor (key iv : Nat) : Nat → List Nat → List Nat
  | _, [] => []
  | i, b :: bs => (b ^^^ keystream key iv i) :: ctrXor key iv (i + 1) bs

theorem ctrXor_ctrXor (key iv : Nat) (i : Nat) (l : List Nat) :
    ctrXor key iv i (ctrXor key iv i l) = l := by
  induction l generalizing i with
  | nil => rfl
  | cons b bs ih => simp [ctrXor, Nat.xor_cancel_right, ih]

/-- The GCM authentication tag over (key, iv, ciphertext), modelled as a
collision-free MAC (`cipher.getAuthTag()`). -/
def authTag (key iv : Nat) (ciphertext : List Nat) : Nat :=
  Nat.pair key (Nat.pair iv (encodeBytes ciphertext))

theorem authTag_inj {key key' iv iv' : Nat} {c c' : List Nat}
    (h : authTag key iv c = authTag key' iv' c') :
    key = key' ∧ iv = iv' ∧ c = c' := by
  unfold authTag at h
  obtain ⟨h1, h2⟩ := Nat.pair_eq_pair.mp h
  obtain ⟨h3, h4⟩ := Nat.pair_eq_pair.mp h2
  exact ⟨h1, h3, encodeBytes_injective h4⟩

/-- The value returned by `aesEncrypt` in `src/server/utils.js`:
`{ iv, tag, ciphertext }` (base64 encodings elided). -/
structure AesEnc where
  iv : Nat
  tag : Nat
  ciphertext : List Nat
deriving DecidableEq, Repr

/-- `aesEncrypt(plaintextBuffer, key)` from `src/server/utils.js`.  The
fresh random 12-byte IV drawn inside the function is passed explicitly. -/
def aesEncrypt (plaintextBuffer : List Nat) (key iv : Nat) : AesEnc :=
  let ciphertext := ctrXor key iv 0 plaintextBuffer
  { iv := iv, tag := authTag key iv ciphertext, ciphertext := ciphertext }

/-- `aesDecrypt(encObj, key)` from `src/server/utils.js`: decrypt and verify
the authentication tag in one pass; `decipher.final()` throws on tag
mismatch, modelled as `none`. -/
def aesDecrypt (encObj : AesEnc) (key : Nat) : Option (List Nat) :=
  if authTag key encObj.iv encObj.ciphertext = encObj.tag then
    some (ctrXor key encObj.iv 0 encObj.ciphertext)
  else none

theorem aesDecrypt_aesEncrypt (p : List Nat) (key iv : Nat) :
    aesDecrypt (aesEncrypt p key iv) key = some p := by
  simp [aesDecrypt, aesEncrypt, ctrXor_ctrXor]

/-! Section: RSA-OAEP key wrapping (`rsaEncrypt`/`rsaDecrypt` in `src/server/utils.js`) -/

/-- An RSA-OAEP ciphertext: symbolically, the wrapped payload tagged with the
key pair it was encrypted to.  Decryption with the wrong private key fails
the OAEP padding check (`crypto.privateDecrypt` throws), modelled as `none`. -/
structure RsaEnc where
  keyId : Nat
  payload : Nat
deriving DecidableEq, Repr

/-- `rsaEncrypt(publicKeyPem, buffer)` from `src/server/utils.js`. -/
def rsaEncrypt (publicKey : PubKey) (m : Nat) : RsaEnc :=
  { keyId := publicKey.keyId, payload := m }

/-- `rsaDecrypt(privateKeyPem, base64)` from `src/server/utils.js`. -/
def rsaDecrypt (privateKey : PrivKey) (c : RsaEnc) : Option Nat :=
  if c.keyId = privateKey.keyId then some c.payload else none

theorem rsaDecrypt_rsaEncrypt (pk : PubKey) (sk : PrivKey) (m : Nat)
    (h : pk.keyId = sk.keyId) : rsaDecrypt sk (rsaEncrypt pk m) = some m := by
  simp [rsaDecrypt, rsaEncrypt, h]

/-! Section: Signatures (`sign`/`verify` in `src/server/utils.js`; RSA-PSS
`signData`/`verifySignature` in `services/cryptoService.js`) -/

/-- A signature: symbolically, the signed data tagged with the signing key
pair (signatures are unforgeable and bind exactly their data). -/
structure Sig where
  keyId : Nat
  data : List Nat
deriving DecidableEq, Repr

/-- `sign(privateKeyPem, data)`. -/
def sign (privateKey : PrivKey) (data : List Nat) : Sig :=
  { keyId := privateKey.keyId, data := data }

/-- `verify(publicKeyPem, data, signatureBase64)`: true exactly when the
signature was produced by the matching private key over the same data. -/
def verify (publicKey : PubKey) (data : List Nat) (s : Sig) : Bool :=
  s.keyId == publicKey.keyId && s.data == data

theorem verify_sign (pk : PubKey) (sk : PrivKey) (data : List Nat)
    (h : sk.keyId = pk.keyId) : verify pk data (sign sk data) = true := by
  simp [verify, sign, h]

/-! Section: AES-256-CBC + hash (research-portal `services/cryptoService.js`)

The research-portal implementation does *not* use an authenticated mode: it
encrypts with AES-256-CBC and separately stores a SHA-256 hash of the
plaintext, recomputed and compared after decryption. -/

/-- `encryptAES(plaintext, key, iv)` (AES-256-CBC), modelled as the same
keyed invertible byte transform; CBC has no authentication tag. -/
def encryptAES (plaintext : List Nat) (key iv : Nat) : List Nat :=
  ctrXor key iv 0 plaintext

/-- `decryptAES(ciphertext, key, iv)` (AES-256-CBC): total inverse transform,
no integrity verification of any kind. -/
def decryptAES (ciphertext : List Nat) (key iv : Nat) : List Nat :=
  ctrXor key iv 0 ciphertext

theorem decryptAES_encryptAES (p : List Nat) (key iv : Nat) :
    decryptAES (encryptAES p key iv) key iv = p := ctrXor_ctrXor key iv 0 p

/-- The encrypted file package returned by `cryptoService.encryptFile`. -/
structure EncPackage where
  encryptedData : List Nat
  iv : Nat
  encryptedKey : RsaEnc
  hash : Nat
deriving DecidableEq, Repr

/-- The result of `cryptoService.decryptFile`: the decrypted bytes are
returned *together with* a hash-verification flag. -/
structure DecPackage where
  data : List Nat
  hashVerified : Bool
  originalHash : Nat
  calculatedHash : Nat
deriving DecidableEq, Repr

/-- `encryptFile(fileBuffer, publicKeyPath)` from `services/cryptoService.js`
(the freshly generated AES key and IV passed explicitly; the public key is
read from the key file path). -/
def encryptFile (fileBuffer : List Nat) (publicKey : PubKey) (aesKey iv : Nat) :
    EncPackage :=
  { encryptedData := encryptAES fileBuffer aesKey iv
    iv := iv
    encryptedKey := rsaEncrypt publicKey aesKey
    hash := sha256 fileBuffer }

/-- `decryptFile(encryptedPackage, privateKeyPath)` from
`services/cryptoService.js`: unwrap the AES key with RSA (a throw is `none`),
CBC-decrypt, then recompute the SHA-256 hash and report whether it matches.
The decrypted bytes are returned even when the hash does not verify. -/
def decryptFile (encryptedPackage : EncPackage) (privateKey : PrivKey) :
    Option DecPackage :=
  match rsaDecrypt privateKey encryptedPackage.encryptedKey with
  | none => none
  | some aesKey =>
    let decryptedFile :=
      decryptAES encryptedPackage.encryptedData aesKey encryptedPackage.iv
    let calculatedHash := sha256 decryptedFile
    some { data := decryptedFile
           hashVerified := calculatedHash == encryptedPackage.hash
           originalHash := encryptedPackage.hash
           calculatedHash := calculatedHash }

/-! Section: Access Control Matrix (the `acl` module, `checkAccess`) -/

/-- The static role → object-type → permitted-actions table (`const ACL`). -/
def ACL : List (String × List (String × List String)) :=
  [("Author",
     [("Paper", ["create", "read", "update"]),
      ("Review", []),
      ("FinalDecision", ["read"])]),
   ("Collaborator",
     [("Paper", ["read", "update"]),
      ("Review", ["read"]),
      ("FinalDecision", ["create", "read"])]),
   ("Reviewer",
     [("Paper", ["read"]),
      ("Review", ["create"]),
      ("FinalDecision", [])])]

/-- `checkAccess(role, objectType, action)`: look up the role's permission
object (missing role denies), then the object type's action list (missing
type yields `[]`), then test action membership. -/
def checkAccess (role objectType action : String) : Bool :=
  match ACL.lookup role with
  | none => false
  | some rolePerms => ((rolePerms.lookup objectType).getD []).contains action

/-! Section: Server data model (`src/server/index.js`, `src/server/db.js`)

The JSON-file DB's objects (`DB.users`, `DB.papers`, `DB.otps`) are modelled
as association lists keyed by email / paper id, looked up with
`List.lookup` (JS object property access). -/

/-- A user record as created by `POST /api/signup` (fields not used by the
claims under verification are elided). -/
structure UserRec where
  email : Email
  role : String
  passwordHash : Nat
  rsaPublicKey : PubKey
  failedLogins : Nat
  lockUntil : Option Nat
deriving DecidableEq, Repr

/-- bcrypt (`utils.hashPassword`): modelled as a collision-free one-way tag
of the password; `utils.verifyPassword` compares hashes. -/
def hashPassword (password : Nat) : Nat := Nat.pair 7 password

/-- `utils.verifyPassword(password, hash)`. -/
def verifyPassword (password hash : Nat) : Bool := hashPassword password == hash

/-- One entry of a paper's `versions` array. -/
structure Version where
  ts : Nat
  enc : AesEnc
  hash : Nat
deriving DecidableEq, Repr

/-- The `decision` object stored on a paper by
`POST /api/papers/:id/decision` (`{ by, decisionText, hash, signature, ts }`;
the JS field `by` is rendered `decidedBy`). -/
structure Decision where
  decidedBy : Email
  decisionText : String
  hash : Nat
  signature : Sig
  ts : Nat
deriving DecidableEq, Repr

/-- A paper record as stored in `DB.papers`. -/
structure Paper where
  id : String
  title : String
  metadata : String
  owner : Email
  collaborators : List Email
  reviewers : List Email
  versions : List Version
  encryptedKeys : List (Email × RsaEnc)
  decision : Option Decision
deriving DecidableEq, Repr

/-- The server DB (the parts of `db.json` the claims touch). -/
structure DB where
  users : List (Email × UserRec)
  papers : List (String × Paper)
deriving DecidableEq, Repr

/-- `req.session.user` (`{ email, role, id }`, id elided). -/
structure SessionUser where
  email : Email
  role : String
deriving DecidableEq, Repr

/-- The recipient-deduplication in `POST /api/papers`:
`[owner, ...collaborators, ...reviewers].filter((v,i,a)=>a.indexOf(v)===i)`
keeps the first occurrence of each email (an element is kept exactly when it
is the first occurrence of its value). -/
def jsDedup : List Email → List Email
  | [] => []
  | x :: xs => x :: (jsDedup xs).filter (fun y => y != x)

theorem mem_jsDedup {a : Email} : ∀ {l : List Email}, a ∈ jsDedup l ↔ a ∈ l
  | [] => by simp [jsDedup]
  | x :: xs => by
    rw [jsDedup]
    by_cases hax : a = x
    · subst hax; simp
    · simp only [List.mem_cons, hax, false_or, List.mem_filter]
      rw [mem_jsDedup (l := xs)]
      simp [hax]

theorem jsDedup_nodup : ∀ (l : List Email), (jsDedup l).Nodup
  | [] => by rw [jsDedup]; exact List.nodup_nil
  | x :: xs => by
    rw [jsDedup]
    refine List.nodup_cons.mpr ⟨fun hmem => ?_, (jsDedup_nodup xs).filter _⟩
    simp [List.mem_filter] at hmem

/-- The wrapped-key map built in `POST /api/papers` (lines 229-233) and
`POST /api/papers/:id/reviews` (lines 295-299): for each recipient that is a
registered user with a public key, wrap the AES key to that user's key. -/
def buildEncryptedKeys (users : List (Email × UserRec)) (recipients : List Email)
    (aesKey : Nat) : List (Email × RsaEnc) :=
  recipients.filterMap fun r =>
    (users.lookup r).map fun u => (r, rsaEncrypt u.rsaPublicKey aesKey)

/-- Outcome of `POST /api/papers`. -/
inductive CreatePaperResult
  | forbidden      -- 403, ACL denies Paper/create for the session role
  | missing        -- 400, no title or file
  | ok (id : String)
deriving DecidableEq, Repr

/-- `POST /api/papers` (lines 217-249): encrypt the file under a fresh AES
key, hash the plaintext, wrap the key for the deduplicated recipient list
(owner, collaborators, reviewers), and store the paper.  The fresh AES key,
IV, paper id and timestamp are passed explicitly. -/
def createPaper (db : DB) (user : SessionUser) (title metadata : String)
    (fileBuf : List Nat) (collaborators reviewers : List Email)
    (aesKey iv : Nat) (pid : String) (ts : Nat) : CreatePaperResult × DB :=
  if ¬ checkAccess user.role "Paper" "create" then (.forbidden, db)
  else if title = "" ∨ fileBuf = [] then (.missing, db)
  else
    let hash := sha256 fileBuf
    let recipients := jsDedup (user.email :: (collaborators ++ reviewers))
    let encryptedKeys := buildEncryptedKeys db.users recipients aesKey
    let paper : Paper :=
      { id := pid, title := title, metadata := metadata, owner := user.email
        collaborators := collaborators, reviewers := reviewers
        versions := [{ ts := ts, enc := aesEncrypt fileBuf aesKey iv, hash := hash }]
        encryptedKeys := encryptedKeys, decision := none }
    (.ok pid, { db with papers := (pid, paper) :: db.papers })

/-- Successful body of `GET /api/papers/:id`
(`{ id, title, metadata, fileBase64, hash }`). -/
structure ReadPaperOk where
  id : String
  title : String
  metadata : String
  fileBase64 : List Nat
  hash : Nat
deriving DecidableEq, Repr

/-- Outcome of `GET /api/papers/:id`.  Only `ok` carries plaintext. -/
inductive ReadPaperResult
  | notFound        -- 404 'not found'
  | forbidden       -- 403 'forbidden', logged reason 'not a recipient'
  | forbiddenRole   -- 403 'forbidden-role'
  | noKey           -- 403 'no key'
  | reAuthRequired  -- 401 'private key not available; re-login required'
  | decryptError    -- 500 'decrypt'
  | ok (body : ReadPaperOk)
deriving DecidableEq, Repr

/-- `GET /api/papers/:id` (lines 252-277).  `priv` is the result of
`getPrivateKeyForSession(req.sessionID)` (the session key custody store is
modelled separately below). -/
def readPaper (db : DB) (user : SessionUser) (pid : String)
    (priv : Option PrivKey) : ReadPaperResult :=
  match db.papers.lookup pid with
  | none => .notFound
  | some paper =>
    let allowedUsers := paper.owner :: (paper.collaborators ++ paper.reviewers)
    if user.email ∉ allowedUsers then .forbidden
    else if ¬ checkAccess user.role "Paper" "read" then .forbiddenRole
    else
      match paper.encryptedKeys.lookup user.email with
      | none => .noKey
      | some encKey =>
        match priv with
        | none => .reAuthRequired
        | some sk =>
          match rsaDecrypt sk encKey with
          | none => .decryptError
          | some aesKey =>
            match paper.versions.getLast? with
            | none => .decryptError
            | some latest =>
              match aesDecrypt latest.enc aesKey with
              | none => .decryptError
              | some plain =>
                .ok { id := pid, title := paper.title, metadata := paper.metadata
                      fileBase64 := plain, hash := latest.hash }

/-- A review record as stored in `DB.reviews` by `POST /api/papers/:id/reviews`
(`{ id, pid, by, enc, hash, encryptedKeys, ts }`; the JS field `by` is
rendered `reviewBy`). -/
structure Review where
  id : String
  pid : String
  reviewBy : Email
  enc : AesEnc
  hash : Nat
  encryptedKeys : List (Email × RsaEnc)
  ts : Nat
deriving DecidableEq, Repr

/-- Outcome of `POST /api/papers/:id/reviews`. -/
inductive CreateReviewResult
  | notFound       -- 404 'not found'
  | notAssigned    -- 403 'not assigned'
  | forbiddenRole  -- 403 'forbidden-role'
  | ok (id : String)
deriving DecidableEq, Repr

/-- `POST /api/papers/:id/reviews` (lines 280-306): a reviewer assigned to
the paper seals the review bytes under a fresh AES key wrapped for the
paper's owner and collaborators.  The source iterates
`[paper.owner, ...collaborators]` without deduplication, but assignment into
the JS `encryptedKeys` object keys entries uniquely — a repeated recipient
reassigns the identical wrapped key to the same property — so the object
holds exactly one entry per distinct registered recipient in
first-occurrence order; `jsDedup` here models the object's key uniqueness,
not a source-level dedup.  `DB.reviews` is passed and returned alongside
(explicit state passing for the reviews store). -/
def createReview (db : DB) (reviews : List (String × Review))
    (user : SessionUser) (pid : String) (revBuf : List Nat) (aesKey iv : Nat)
    (rid : String) (ts : Nat) : CreateReviewResult × List (String × Review) :=
  match db.papers.lookup pid with
  | none => (.notFound, reviews)
  | some paper =>
    if user.email ∉ paper.reviewers then (.notAssigned, reviews)
    else if ¬ checkAccess user.role "Review" "create" then (.forbiddenRole, reviews)
    else
      let recipients := jsDedup (paper.owner :: paper.collaborators)
      let encryptedKeys := buildEncryptedKeys db.users recipients aesKey
      let rev : Review :=
        { id := rid, pid := pid, reviewBy := user.email
          enc := aesEncrypt revBuf aesKey iv, hash := sha256 revBuf
          encryptedKeys := encryptedKeys, ts := ts }
      (.ok rid, (rid, rev) :: reviews)

/-! Section: Server decision endpoints (`src/server/index.js` lines 309-343) -/

/-- Outcome of `POST /api/papers/:id/decision`. -/
inductive PostDecisionResult
  | notFound         -- 404 'not found'
  | notCollaborator  -- 403 'not collaborator'
  | forbiddenRole    -- 403 'forbidden-role'
  | reAuthRequired   -- 401 private key not available
  | ok
deriving DecidableEq, Repr

/-- Replace the paper stored under `pid` (`DB.papers[pid] = ...` keeps the
same key; with association-list lookup, prepending shadows the old entry). -/
def setPaper (db : DB) (pid : String) (paper : Paper) : DB :=
  { db with papers := (pid, paper) :: db.papers }

/-- `POST /api/papers/:id/decision` (lines 309-327): the *data signed* is
`Buffer.from(decisionText, 'utf8')` — only the decision text; the stored
record also carries the signer, a SHA-256 hash of the text, and a fresh
timestamp, none of which are covered by the signature. -/
def postDecision (db : DB) (user : SessionUser) (pid : String)
    (decisionText : String) (priv : Option PrivKey) (ts : Nat) :
    PostDecisionResult × DB :=
  match db.papers.lookup pid with
  | none => (.notFound, db)
  | some paper =>
    if user.email ∉ paper.collaborators then (.notCollaborator, db)
    else if ¬ checkAccess user.role "FinalDecision" "create" then (.forbiddenRole, db)
    else
      match priv with
      | none => (.reAuthRequired, db)
      | some sk =>
        let buf := strBytes decisionText
        let dec : Decision :=
          { decidedBy := user.email, decisionText := decisionText
            hash := sha256 buf, signature := sign sk buf, ts := ts }
        (.ok, setPaper db pid { paper with decision := some dec })

/-- Outcome of `GET /api/papers/:id/decision`. -/
inductive GetDecisionResult
  | noDecision     -- 404 'no decision'
  | forbidden      -- 403 'forbidden'
  | signerUnknown  -- signer not in DB.users: `verify` throws, express 500
  | ok (decision : Decision) (signatureValid : Bool)
deriving DecidableEq, Repr

/-- `GET /api/papers/:id/decision` (lines 330-343): verification recomputes
the signed data from the *stored* `decisionText` only and reports
`signature_valid` alongside the decision (failure is non-fatal). -/
def getDecision (db : DB) (user : SessionUser) (pid : String) : GetDecisionResult :=
  match db.papers.lookup pid with
  | none => .noDecision
  | some paper =>
    match paper.decision with
    | none => .noDecision
    | some dec =>
      if ¬ checkAccess user.role "FinalDecision" "read" then .forbidden
      else
        match db.users.lookup dec.decidedBy with
        | none => .signerUnknown
        | some u =>
          .ok dec (verify u.rsaPublicKey (strBytes dec.decisionText) dec.signature)

/-! Section: OTP subsystem (`POST /api/verify-otp`, `src/server/index.js`
lines 132-150) -/

/-- An entry of `DB.otps`: `{ otp, expires, used }`, with `attempts`
defaulted to 0 on first use (`record.attempts = record.attempts || 0`). -/
structure OtpRec where
  otp : String
  expires : Nat
  used : Bool
  attempts : Nat
deriving DecidableEq, Repr

/-- Outcome of `POST /api/verify-otp`. -/
inductive OtpResult
  | noOtp    -- 400 'no otp'
  | usedErr  -- 400 'otp used' (consumed or locked: both set `used`)
  | expired  -- 400 'expired'
  | invalid  -- 400 'invalid' (mismatch; attempt counter incremented)
  | ok       -- 200
deriving DecidableEq, Repr

/-- The per-record step of `POST /api/verify-otp`: used-check first, then
expiry, then code comparison.  A mismatch increments `attempts` and, at the
5th consecutive mismatch, marks the record used (lockout); a match marks it
used (consumed). -/
def verifyOtpRec (record : OtpRec) (otp : String) (now : Nat) :
    OtpResult × OtpRec :=
  if record.used then (.usedErr, record)
  else if now > record.expires then (.expired, record)
  else if record.otp ≠ otp then
    let attempts := record.attempts + 1
    if attempts ≥ 5 then (.invalid, { record with attempts := attempts, used := true })
    else (.invalid, { record with attempts := attempts })
  else (.ok, { record with used := true })

/-- `POST /api/verify-otp` on the challenge looked up for an email
(`DB.otps[email]`); absence is the 'no otp' error. -/
def verifyOtp (record : Option OtpRec) (otp : String) (now : Nat) :
    OtpResult × Option OtpRec :=
  match record with
  | none => (.noOtp, none)
  | some r =>
    let (res, r') := verifyOtpRec r otp now
    (res, some r')

/-- Fold a sequence of `(submittedCode, time)` verification attempts over a
challenge record. -/
def runOtp (record : OtpRec) : List (String × Nat) → OtpRec
  | [] => record
  | (code, t) :: rest => runOtp (verifyOtpRec record code t).2 rest

/-! Section: Research-portal OTP verification
(`controllers/authController.js` lines 237-265, login branch) -/

/-- Outcome of the research-portal `verifyOTP` login branch. -/
inductive MfaResult
  | badFormat   -- 400 'OTP must be 6 digits'
  | invalidOtp  -- 401 'Invalid OTP'
  | expired     -- 401 'OTP expired. Please login again.'
  | okLogin     -- 200 'Login successful'
deriving DecidableEq, Repr

/-- The user fields the portal `verifyOTP` reads and writes (mongoose `User`
model: `otpCode`, `otpExpiry`, `isEmailVerified`, `lastLogin`). -/
structure MfaUser where
  otpCode : Option String
  otpExpiry : Option Nat
  isEmailVerified : Bool
  lastLogin : Option Nat
deriving DecidableEq, Repr

/-- The format gate `/^\d{6}$/.test(otp.toString())`. -/
def digits6 (otp : String) : Bool :=
  otp.length == 6 && otp.data.all Char.isDigit

/-- `verifyOTP`, login branch (`authController.js` lines 237-265): format
check, then code comparison (checked *before* expiry), then expiry
(`new Date() > user.otpExpiry`; a null expiry coerces to 0); on success the
code and expiry are cleared and the user saved.  There is no used flag and
no attempt counter: mismatches leave the record untouched. -/
def verifyOTP (user : MfaUser) (otp : String) (now : Nat) : MfaResult × MfaUser :=
  if ¬ digits6 otp then (.badFormat, user)
  else if user.otpCode ≠ some otp then (.invalidOtp, user)
  else if now > user.otpExpiry.getD 0 then (.expired, user)
  else (.okLogin, { user with otpCode := none, otpExpiry := none
                              isEmailVerified := true, lastLogin := some now })

/-- Fold a sequence of `(submittedCode, time)` attempts over a portal user. -/
def runVerifyOTP (user : MfaUser) : List (String × Nat) → MfaUser
  | [] => user
  | (c, t) :: rest => runVerifyOTP (verifyOTP user c t).2 rest

/-! Section: Session key custody (`src/server/index.js` lines 29-45, 433-438) -/

/-- One entry of the in-memory `privateKeyStore`:
`{ privateKeyPem, expiresAt }`. -/
structure KeyRec where
  privateKeyPem : PrivKey
  expiresAt : Nat
deriving DecidableEq, Repr

/-- The process-wide `privateKeyStore` `Map`, keyed by session id. -/
abbrev KeyStore := String → Option KeyRec

/-- `storePrivateKeyForSession(sessionId, privateKeyPem)`: bind the decrypted
key with a 2-hour expiry (matching the session cookie `maxAge`). -/
def storePrivateKeyForSession (store : KeyStore) (sessionId : String)
    (privateKeyPem : PrivKey) (now : Nat) : KeyStore :=
  fun s => if s = sessionId
    then some { privateKeyPem := privateKeyPem, expiresAt := now + 2 * 60 * 60 * 1000 }
    else store s

/-- `getPrivateKeyForSession(sessionId)` (lines 38-43): a missing entry gives
`null`; a present entry strictly past its expiry is deleted from the map and
`null` is returned; otherwise the key is returned.  The result pairs the
returned value with the store after the call. -/
def getPrivateKeyForSession (store : KeyStore) (sessionId : String) (now : Nat) :
    Option PrivKey × KeyStore :=
  match store sessionId with
  | none => (none, store)
  | some rec =>
    if now > rec.expiresAt then
      (none, fun s => if s = sessionId then none else store s)
    else (some rec.privateKeyPem, store)

/-- `clearPrivateKeyForSession(sessionId)` (line 45). -/
def clearPrivateKeyForSession (store : KeyStore) (sessionId : String) : KeyStore :=
  fun s => if s = sessionId then none else store s

/-- The periodic sweep (lines 433-438): delete every entry whose expiry is at
or before `now`. -/
def sweepExpired (store : KeyStore) (now : Nat) : KeyStore :=
  fun s => match store s with
    | none => none
    | some rec => if rec.expiresAt ≤ now then none else some rec

/-! Section: Login lockout (`POST /api/login`, `src/server/index.js`
lines 152-188) -/

/-- Outcome of `POST /api/login` for an existing user (the unknown-user 401
and the private-key-decrypt 500 are out of scope of the lockout logic; the
session key binding on success is modelled by the custody store above). -/
inductive LoginResult
  | locked           -- 423 'account locked'
  | invalidPassword  -- 401 'invalid'
  | ok               -- 200
deriving DecidableEq, Repr

/-- `POST /api/login` on an existing user record (lines 157-183): the lockout
window is checked *before* the password; a failed password increments
`failedLogins` and, at 5, sets a 15-minute `lockUntil`; a success resets the
counter and clears the lockout. -/
def login (user : UserRec) (password : Nat) (now : Nat) : LoginResult × UserRec :=
  if (match user.lockUntil with | some t => decide (now < t) | none => false) then
    (.locked, user)
  else if ¬ verifyPassword password user.passwordHash then
    let failed := user.failedLogins + 1
    (.invalidPassword,
      { user with failedLogins := failed
                  lockUntil := if failed ≥ 5 then some (now + 15 * 60 * 1000)
                               else user.lockUntil })
  else (.ok, { user with failedLogins := 0, lockUntil := none })

/-- Fold a sequence of `(password, time)` login attempts over a user record. -/
def runLogin (user : UserRec) : List (Nat × Nat) → UserRec
  | [] => user
  | (pw, t) :: rest => runLogin (login user pw t).2 rest

/-! Section: Research-portal decisions (`controllers/decisionController.js`) -/

/-- A Decision document (mongoose `Decision` model): fields of
`decisionData` in `makeDecision` (reviewsSummary/averageRating elided). -/
structure DecisionDoc where
  id : Nat
  paperId : String
  decision : String
  summary : String
  editorEmail : Email
  signature : Sig
  decidedAt : Nat
deriving DecidableEq, Repr

/-- The `dataToSign`/`dataToVerify` serialization in
`decisionController.js`: `JSON.stringify` of the four attested fields
`{ paperId, decision, summary, decidedAt }` in fixed key order — modelled as
an injective encoding of the 4-tuple. -/
def decisionDataToSign (paperId decision summary : String) (decidedAt : Nat) :
    List Nat :=
  [Nat.pair (encodeBytes (strBytes paperId))
    (Nat.pair (encodeBytes (strBytes decision))
      (Nat.pair (encodeBytes (strBytes summary)) decidedAt))]

theorem decisionDataToSign_inj {p p' d d' s s' : String} {t t' : Nat}
    (h : decisionDataToSign p d s t = decisionDataToSign p' d' s' t') :
    p = p' ∧ d = d' ∧ s = s' ∧ t = t' := by
  unfold decisionDataToSign at h
  simp only [List.cons.injEq, and_true] at h
  obtain ⟨h1, h2⟩ := Nat.pair_eq_pair.mp h
  obtain ⟨h3, h4⟩ := Nat.pair_eq_pair.mp h2
  obtain ⟨h5, h6⟩ := Nat.pair_eq_pair.mp h4
  exact ⟨strBytes_injective (encodeBytes_injective h1),
         strBytes_injective (encodeBytes_injective h3),
         strBytes_injective (encodeBytes_injective h5), h6⟩

/-- JavaScript `String.prototype.trim()`: strip whitespace from both ends
(computable model of the `summary.trim()` calls in the controllers). -/
def trimStr (s : String) : String :=
  ⟨(((s.data.dropWhile Char.isWhitespace).reverse.dropWhile
      Char.isWhitespace).reverse)⟩

/-- `Decision.findOne({ paperId })`. -/
def findOneByPaper (decisions : List DecisionDoc) (paperId : String) :
    Option DecisionDoc :=
  decisions.find? (fun d => d.paperId == paperId)

/-- `makeDecision` (`decisionController.js` lines 27-140), decision-store
part: sign the JSON of (paperId, decision, raw summary, a signing-time
timestamp); then, if a decision for the paper already exists, overwrite that
same document's fields in place (`Decision.findByIdAndUpdate`), storing the
*trimmed* summary and the document timestamp `tStore`; otherwise insert a new
document with the fresh id. -/
def makeDecision (decisions : List DecisionDoc) (paperId : String)
    (decision summary : String) (editorEmail : Email) (sk : PrivKey)
    (tStore tSign freshId : Nat) : List DecisionDoc :=
  let signature := sign sk (decisionDataToSign paperId decision summary tSign)
  match findOneByPaper decisions paperId with
  | some existing =>
    decisions.map fun d =>
      if d.id = existing.id then
        { d with decision := decision, summary := trimStr summary
                 editorEmail := editorEmail, signature := signature
                 decidedAt := tStore }
      else d
  | none =>
    decisions ++ [{ id := freshId, paperId := paperId, decision := decision
                    summary := trimStr summary, editorEmail := editorEmail
                    signature := signature, decidedAt := tStore }]

/-- `verifyDecisionSignature` (`decisionController.js` lines 182-217):
reconstruct the serialization from the *stored* fields and verify against
the single site keypair's public key. -/
def verifyDecisionSignature (decisions : List DecisionDoc) (publicKey : PubKey)
    (decisionId : Nat) : Option Bool :=
  match decisions.find? (fun d => d.id == decisionId) with
  | none => none
  | some d =>
    some (verify publicKey
      (decisionDataToSign d.paperId d.decision d.summary d.decidedAt)
      d.signature)

/-! Claim theorems follow; each is preceded by a doc comment naming the claim. -/

/-- C8: The access-control check is fail-closed: `checkAccess` returns
`true` exactly when the (role, resourceType, action) triple is present in the
static ACL table — a role absent from the table, an object type absent from
the role's row, or an action absent from the permitted list all yield
`false`. -/
theorem acm_fail_closed (role objectType action : String) :
    checkAccess role objectType action = true ↔
      ∃ rolePerms actions,
        ACL.lookup role = some rolePerms ∧
        rolePerms.lookup objectType = some actions ∧
        action ∈ actions := by
  unfold checkAccess
  cases hrole : ACL.lookup role with
  | none => simp
  | some rolePerms =>
    cases htype : rolePerms.lookup objectType with
    | none => simp [htype, List.contains]
    | some actions => simp [htype, List.contains]

/-- Witness for C8 at a concrete triple present in the table. -/
theorem acm_fail_closed_witness : checkAccess "Author" "Paper" "create" = true :=
  (acm_fail_closed "Author" "Paper" "create").mpr
    ⟨[("Paper", ["create", "read", "update"]), ("Review", []),
      ("FinalDecision", ["read"])],
     ["create", "read", "update"], by decide, by decide, by decide⟩

/-- C7: Session-key custody expiry: a lookup strictly after the stored
expiry returns `none` and evicts the entry as a side effect (first conjunct:
any store whose entry for the session, if present, has expired; second
conjunct: a key bound at `bindTime` looked up strictly after the 2-hour TTL). -/
theorem session_key_expiry :
    (∀ (store : KeyStore) (sid : String) (now : Nat),
      (∀ rec, store sid = some rec → now > rec.expiresAt) →
      (getPrivateKeyForSession store sid now).1 = none ∧
      (getPrivateKeyForSession store sid now).2 sid = none) ∧
    (∀ (store : KeyStore) (sid : String) (sk : PrivKey) (bindTime now : Nat),
      now > bindTime + 2 * 60 * 60 * 1000 →
      (getPrivateKeyForSession (storePrivateKeyForSession store sid sk bindTime)
          sid now).1 = none ∧
      (getPrivateKeyForSession (storePrivateKeyForSession store sid sk bindTime)
          sid now).2 sid = none) := by
  constructor
  · intro store sid now h
    unfold getPrivateKeyForSession
    cases hs : store sid with
    | none => exact ⟨rfl, by simpa using hs⟩
    | some rec =>
      have hexp := h rec hs
      simp [hexp]
  · intro store sid sk bindTime now h
    unfold getPrivateKeyForSession storePrivateKeyForSession
    simp [h]

/-- Witness for C7 at a concrete store and time. -/
theorem session_key_expiry_witness :
    (getPrivateKeyForSession
      (storePrivateKeyForSession (fun _ => none) "sess1" ⟨1⟩ 0) "sess1"
      (2 * 60 * 60 * 1000 + 1)).1 = none ∧
    (getPrivateKeyForSession
      (storePrivateKeyForSession (fun _ => none) "sess1" ⟨1⟩ 0) "sess1"
      (2 * 60 * 60 * 1000 + 1)).2 "sess1" = none :=
  session_key_expiry.2 (fun _ => none) "sess1" ⟨1⟩ 0 (2 * 60 * 60 * 1000 + 1)
    (by norm_num)

/-- C1 counterexample: The research-portal `decryptFile` *does* return
plaintext bytes whose integrity check failed: sealing `[7, 200]` and flipping
the lowest bit of the first ciphertext byte, `decryptFile` still returns the
(corrupted) decrypted bytes `[6, 200]`, merely flagging `hashVerified =
false` — it does not abort before plaintext is produced. -/
theorem decryptFile_returns_unverified_plaintext :
    encryptFile [7, 200] ⟨2⟩ 3 5 =
      { encryptedData := [170, 198], iv := 5, encryptedKey := rsaEncrypt ⟨2⟩ 3
        hash := sha256 [7, 200] } ∧
    decryptFile
      { encryptedData := [170 ^^^ 1, 198], iv := 5
        encryptedKey := rsaEncrypt ⟨2⟩ 3, hash := sha256 [7, 200] } ⟨2⟩ =
      some { data := [6, 200], hashVerified := false
             originalHash := sha256 [7, 200], calculatedHash := sha256 [6, 200] } ∧
    [6, 200] ≠ ([] : List Nat) := by
  refine ⟨by decide, by decide, by decide⟩

/-- C1 amended: In the server implementation (`aesDecrypt`, AES-GCM),
decryption verifies the tag in the same operation and any modification of the
ciphertext or tag aborts with no plaintext returned; in the research-portal
implementation (`decryptFile`, AES-CBC + SHA-256), the decrypted bytes are
returned together with a `hashVerified` flag that is true exactly when the
recomputed plaintext hash matches the stored one — integrity failure does not
prevent the plaintext bytes from being returned to the caller. -/
theorem integrity_check_amended :
    (∀ (encObj : AesEnc) (key : Nat) (p : List Nat),
      aesDecrypt encObj key = some p →
      authTag key encObj.iv encObj.ciphertext = encObj.tag)
    ∧ (∀ (p : List Nat) (key iv : Nat) (c' : List Nat),
      c' ≠ (aesEncrypt p key iv).ciphertext →
      aesDecrypt { aesEncrypt p key iv with ciphertext := c' } key = none)
    ∧ (∀ (p : List Nat) (key iv t' : Nat),
      t' ≠ (aesEncrypt p key iv).tag →
      aesDecrypt { aesEncrypt p key iv with tag := t' } key = none)
    ∧ (∀ (pkg : EncPackage) (sk : PrivKey) (d : DecPackage),
      decryptFile pkg sk = some d →
      (d.hashVerified = true ↔ sha256 d.data = pkg.hash)) := by
  refine ⟨?_, ?_, ?_, ?_⟩
  · intro encObj key p h
    unfold aesDecrypt at h
    split at h
    · assumption
    · exact absurd h (by simp)
  · intro p key iv c' hne
    unfold aesDecrypt
    simp only [aesEncrypt] at hne ⊢
    split
    · next heq => exact absurd (authTag_inj heq).2.2 hne
    · rfl
  · intro p key iv t' hne
    unfold aesDecrypt
    simp only [aesEncrypt] at hne ⊢
    split
    · next heq => exact absurd heq.symm hne
    · rfl
  · intro pkg sk d h
    unfold decryptFile at h
    cases hk : rsaDecrypt sk pkg.encryptedKey with
    | none => rw [hk] at h; exact absurd h (by simp)
    | some aesKey =>
      rw [hk] at h
      simp only [Option.some.injEq] at h
      subst h
      simp [beq_iff_eq]

/-- Witness for C1 (amended): concrete applications of each conjunct. -/
theorem integrity_check_amended_witness :
    authTag 3 (aesEncrypt [7] 3 5).iv (aesEncrypt [7] 3 5).ciphertext =
      (aesEncrypt [7] 3 5).tag ∧
    aesDecrypt { aesEncrypt [7] 3 5 with ciphertext := [0] } 3 = none ∧
    aesDecrypt { aesEncrypt [7] 3 5 with tag := 0 } 3 = none ∧
    (true = true ↔ sha256 [7] = (encryptFile [7] ⟨2⟩ 3 5).hash) :=
  ⟨integrity_check_amended.1 (aesEncrypt [7] 3 5) 3 [7] (by decide),
   integrity_check_amended.2.1 [7] 3 5 [0] (by decide),
   integrity_check_amended.2.2.1 [7] 3 5 0 (by decide),
   integrity_check_amended.2.2.2 (encryptFile [7] ⟨2⟩ 3 5) ⟨2⟩
     { data := [7], hashVerified := true, originalHash := sha256 [7]
       calculatedHash := sha256 [7] } (by decide)⟩

/-! Section: OTP lemmas (C6) -/

theorem verifyOtpRec_used_eq (r : OtpRec) (code : String) (now : Nat)
    (h : r.used = true) : verifyOtpRec r code now = (.usedErr, r) := by
  unfold verifyOtpRec
  rw [if_pos h]

theorem verifyOtpRec_ok_used (r : OtpRec) (code : String) (now : Nat)
    (h : (verifyOtpRec r code now).1 = .ok) :
    ((verifyOtpRec r code now).2).used = true := by
  unfold verifyOtpRec at h ⊢
  by_cases h1 : r.used = true
  · simp [h1] at h
  · by_cases h2 : now > r.expires
    · simp [h1, h2] at h
    · by_cases h3 : r.otp = code
      · simp [h1, h2, h3]
      · simp only [if_neg h1, if_neg h2, if_pos h3] at h ⊢
        split at h <;> simp at h

/-- A run of consecutive mismatched, in-time submissions that brings the
attempt counter to the limit 5 leaves the challenge consumed (`used`). -/
theorem runOtp_mismatch (record : OtpRec) (subs : List (String × Nat))
    (hused : record.used = false) (hlen : 1 ≤ subs.length)
    (hsum : record.attempts + subs.length = 5)
    (hw : ∀ p ∈ subs, p.1 ≠ record.otp ∧ p.2 ≤ record.expires) :
    runOtp record subs = { record with attempts := 5, used := true } := by
  induction subs generalizing record with
  | nil => simp at hlen
  | cons head rest ih =>
    obtain ⟨hcode, htime⟩ := hw head (List.mem_cons_self _ _)
    have hstep : verifyOtpRec record head.1 head.2 =
        if record.attempts + 1 ≥ 5 then
          (.invalid, { record with attempts := record.attempts + 1, used := true })
        else (.invalid, { record with attempts := record.attempts + 1 }) := by
      unfold verifyOtpRec
      rw [if_neg (by simp [hused]), if_neg (by omega), if_pos (by exact fun h => hcode h.symm)]
    rw [runOtp, hstep]
    rcases rest with _ | ⟨r2, rest2⟩
    · have h5 : record.attempts + 1 = 5 := by
        simpa using hsum
      rw [if_pos (by omega)]
      simp [runOtp, h5]
    · have hlt : record.attempts + 1 < 5 := by
        simp only [List.length_cons] at hsum
        omega
      rw [if_neg (by omega)]
      have := ih { record with attempts := record.attempts + 1 }
        (by simp [hused]) (by simp)
        (by simp only [List.length_cons] at hsum ⊢; omega)
        (fun p hp => hw p (List.mem_cons_of_mem _ hp))
      simpa using this

/-! Section: Research-portal verifyOTP lemmas (C6) -/

theorem verifyOTP_mismatch_state (u : MfaUser) (c : String) (t : Nat)
    (h : u.otpCode ≠ some c) : (verifyOTP u c t).2 = u := by
  unfold verifyOTP
  by_cases hf : digits6 c = true
  · rw [if_neg (not_not.mpr hf), if_pos h]
  · rw [if_pos hf]

theorem runVerifyOTP_mismatch (u : MfaUser) (subs : List (String × Nat))
    (h : ∀ p ∈ subs, u.otpCode ≠ some p.1) : runVerifyOTP u subs = u := by
  induction subs with
  | nil => rfl
  | cons head rest ih =>
    obtain ⟨c, t⟩ := head
    rw [runVerifyOTP,
      verifyOTP_mismatch_state u c t (h (c, t) (List.mem_cons_self _ _))]
    exact ih (fun p hp => h p (List.mem_cons_of_mem _ hp))

theorem verifyOTP_ok_clears (u : MfaUser) (c : String) (t : Nat)
    (h : (verifyOTP u c t).1 = .okLogin) : ((verifyOTP u c t).2).otpCode = none := by
  unfold verifyOTP at h ⊢
  by_cases h1 : digits6 c = true
  · rw [if_neg (not_not.mpr h1)] at h ⊢
    by_cases h2 : u.otpCode ≠ some c
    · rw [if_pos h2] at h
      exact absurd h (by simp)
    · rw [if_neg h2] at h ⊢
      by_cases h3 : t > u.otpExpiry.getD 0
      · rw [if_pos h3] at h
        exact absurd h (by simp)
      · rw [if_neg h3]
  · rw [if_pos h1] at h
    exact absurd h (by simp)

theorem verifyOTP_none_code (u : MfaUser) (c : String) (t : Nat)
    (hn : u.otpCode = none) (hf : digits6 c = true) :
    verifyOTP u c t = (.invalidOtp, u) := by
  unfold verifyOTP
  rw [if_neg (not_not.mpr hf), if_pos (by rw [hn]; simp)]

/-- C6 counterexample: the research-portal `verifyOTP` (authController.js
lines 237-265, a cited source of the claim) has no attempt counter and no
terminal lockout: after five consecutive mismatched 6-digit submissions the
next verify with the correct code "482913" returns the success result — not
a locked/consumed failure — and a replay of the correct code after the
success returns the invalid-OTP error, not a distinct AlreadyUsed result. -/
theorem portal_verifyOTP_no_lockout :
    verifyOTP
        (runVerifyOTP
          { otpCode := some "482913", otpExpiry := some 300000
            isEmailVerified := false, lastLogin := none }
          [("000000", 10), ("000001", 20), ("000002", 30), ("000003", 40),
           ("000004", 50)]) "482913" 60 =
      (.okLogin, { otpCode := none, otpExpiry := none, isEmailVerified := true
                   lastLogin := some 60 }) ∧
    verifyOTP
        (verifyOTP
          (runVerifyOTP
            { otpCode := some "482913", otpExpiry := some 300000
              isEmailVerified := false, lastLogin := none }
            [("000000", 10), ("000001", 20), ("000002", 30), ("000003", 40),
             ("000004", 50)]) "482913" 60).2 "482913" 70 =
      (.invalidOtp,
       { otpCode := none, otpExpiry := none, isEmailVerified := true
         lastLogin := some 60 }) := by
  refine ⟨by decide, by decide⟩

/-- C6 amended: The two OTP implementations differ.  In the server
implementation (`POST /api/verify-otp`) challenges are single-use with a
terminal lockout: (1) a used/locked challenge answers every verify with the
'otp used' failure, never `ok`, and leaves the record unchanged (terminal
states never return to Active); (2) a successful verify marks the challenge
used, so every later verify returns the 'otp used' failure regardless of the
submitted code; (3) after 5 consecutive in-time mismatches on a fresh
challenge, the next verify returns the 'otp used' failure even when the
correct code is submitted.  In the research-portal login flow (`verifyOTP`)
there is no attempt counter and no AlreadyUsed state: (4) mismatched
submissions leave the user record unchanged, so (5) after any number of
mismatches the correct code still verifies within the expiry window; (6) a
success clears the stored code, so any later verify — including a replay of
the correct code — fails with the invalid-OTP error, never success. -/
theorem otp_single_use_lockout :
    (∀ (r : OtpRec) (code : String) (now : Nat), r.used = true →
      verifyOtpRec r code now = (.usedErr, r) ∧ OtpResult.usedErr ≠ OtpResult.ok)
    ∧ (∀ (r : OtpRec) (code : String) (now : Nat) (code' : String) (now' : Nat),
      (verifyOtpRec r code now).1 = .ok →
      verifyOtpRec (verifyOtpRec r code now).2 code' now' =
        (.usedErr, (verifyOtpRec r code now).2))
    ∧ (∀ (r : OtpRec) (subs : List (String × Nat)),
      r.used = false → r.attempts = 0 → subs.length = 5 →
      (∀ p ∈ subs, p.1 ≠ r.otp ∧ p.2 ≤ r.expires) →
      ∀ now, verifyOtpRec (runOtp r subs) r.otp now =
        (.usedErr, runOtp r subs))
    ∧ (∀ (u : MfaUser) (subs : List (String × Nat)),
      (∀ p ∈ subs, u.otpCode ≠ some p.1) → runVerifyOTP u subs = u)
    ∧ (∀ (u : MfaUser) (subs : List (String × Nat)) (code : String) (now : Nat),
      (∀ p ∈ subs, u.otpCode ≠ some p.1) →
      u.otpCode = some code → digits6 code = true →
      ¬ now > u.otpExpiry.getD 0 →
      verifyOTP (runVerifyOTP u subs) code now =
        (.okLogin, { u with otpCode := none, otpExpiry := none
                            isEmailVerified := true, lastLogin := some now }))
    ∧ (∀ (u : MfaUser) (code : String) (now : Nat),
      (verifyOTP u code now).1 = .okLogin →
      ∀ (code' : String) (now' : Nat), digits6 code' = true →
        verifyOTP (verifyOTP u code now).2 code' now' =
          (.invalidOtp, (verifyOTP u code now).2) ∧
        MfaResult.invalidOtp ≠ MfaResult.okLogin) := by
  refine ⟨?_, ?_, ?_, ?_, ?_, ?_⟩
  · intro r code now hused
    exact ⟨verifyOtpRec_used_eq r code now hused, by simp⟩
  · intro r code now code' now' hok
    exact verifyOtpRec_used_eq _ code' now' (verifyOtpRec_ok_used r code now hok)
  · intro r subs hused hzero hlen hw now
    have hrun := runOtp_mismatch r subs hused (by omega) (by omega) hw
    rw [hrun]
    exact verifyOtpRec_used_eq _ r.otp now rfl
  · intro u subs h
    exact runVerifyOTP_mismatch u subs h
  · intro u subs code now hmiss hcode hfmt hexp
    rw [runVerifyOTP_mismatch u subs hmiss]
    unfold verifyOTP
    rw [if_neg (not_not.mpr hfmt), if_neg (fun hne => hne hcode),
      if_neg hexp]
  · intro u code now hok code' now' hfmt'
    have hclear := verifyOTP_ok_clears u code now hok
    exact ⟨verifyOTP_none_code _ code' now' hclear hfmt', by simp⟩

/-- Witness for C6 (amended): code "482913" on both implementations — server
replay and lockout traces, and portal no-lockout and post-success-replay
traces. -/
theorem otp_single_use_lockout_witness :
    (verifyOtpRec { otp := "482913", expires := 300000, used := false, attempts := 0 }
        "482913" 120000).1 = OtpResult.ok ∧
    verifyOtpRec
        (verifyOtpRec { otp := "482913", expires := 300000, used := false, attempts := 0 }
          "482913" 120000).2 "482913" 130000 =
      (.usedErr,
        (verifyOtpRec { otp := "482913", expires := 300000, used := false, attempts := 0 }
          "482913" 120000).2) ∧
    verifyOtpRec
        (runOtp { otp := "482913", expires := 300000, used := false, attempts := 0 }
          [("000000", 10), ("000001", 20), ("000002", 30), ("000003", 40),
           ("000004", 50)]) "482913" 60 =
      (.usedErr,
        runOtp { otp := "482913", expires := 300000, used := false, attempts := 0 }
          [("000000", 10), ("000001", 20), ("000002", 30), ("000003", 40),
           ("000004", 50)]) ∧
    verifyOTP
        (runVerifyOTP
          { otpCode := some "482913", otpExpiry := some 300000
            isEmailVerified := false, lastLogin := none }
          [("111111", 15), ("222222", 25)]) "482913" 35 =
      (.okLogin, { otpCode := none, otpExpiry := none, isEmailVerified := true
                   lastLogin := some 35 }) ∧
    verifyOTP
        (verifyOTP
          { otpCode := some "482913", otpExpiry := some 300000
            isEmailVerified := false, lastLogin := none } "482913" 45).2
        "482913" 55 =
      (.invalidOtp,
        (verifyOTP
          { otpCode := some "482913", otpExpiry := some 300000
            isEmailVerified := false, lastLogin := none } "482913" 45).2) :=
  ⟨by decide,
   otp_single_use_lockout.2.1
     { otp := "482913", expires := 300000, used := false, attempts := 0 }
     "482913" 120000 "482913" 130000 (by decide),
   otp_single_use_lockout.2.2.1
     { otp := "482913", expires := 300000, used := false, attempts := 0 }
     [("000000", 10), ("000001", 20), ("000002", 30), ("000003", 40),
      ("000004", 50)]
     rfl rfl rfl (by decide) 60,
   otp_single_use_lockout.2.2.2.2.1
     { otpCode := some "482913", otpExpiry := some 300000
       isEmailVerified := false, lastLogin := none }
     [("111111", 15), ("222222", 25)] "482913" 35
     (by decide) rfl (by decide) (by decide),
   (otp_single_use_lockout.2.2.2.2.2
     { otpCode := some "482913", otpExpiry := some 300000
       isEmailVerified := false, lastLogin := none }
     "482913" 45 (by decide) "482913" 55 (by decide)).1⟩

/-! Section: Wrapped-key map lemmas (C2, C3, C5) -/

theorem lookup_buildEncryptedKeys (users : List (Email × UserRec))
    (recipients : List Email) (aesKey : Nat) (r : Email) (u : UserRec)
    (hu : users.lookup r = some u) (hr : r ∈ recipients) :
    (buildEncryptedKeys users recipients aesKey).lookup r =
      some (rsaEncrypt u.rsaPublicKey aesKey) := by
  induction recipients with
  | nil => cases hr
  | cons x xs ih =>
    unfold buildEncryptedKeys at ih ⊢
    rw [List.filterMap_cons]
    by_cases hx : r = x
    · subst hx
      rw [hu]
      simp [List.lookup]
    · cases hux : users.lookup x with
      | none =>
        simp only [hux, Option.map_none']
        exact ih (List.mem_of_ne_of_mem hx hr)
      | some w =>
        simp only [hux, Option.map_some']
        rw [List.lookup]
        have : (r == x) = false := beq_eq_false_iff_ne.mpr hx
        rw [this]
        exact ih (List.mem_of_ne_of_mem hx hr)

theorem keys_buildEncryptedKeys (users : List (Email × UserRec))
    (recipients : List Email) (aesKey : Nat) :
    (buildEncryptedKeys users recipients aesKey).map Prod.fst =
      recipients.filter (fun r => (users.lookup r).isSome) := by
  induction recipients with
  | nil => rfl
  | cons x xs ih =>
    unfold buildEncryptedKeys at ih ⊢
    rw [List.filterMap_cons, List.filter_cons]
    cases hux : users.lookup x with
    | none => simpa [hux] using ih
    | some w => simpa [hux] using ih

/-- Reduction of `POST /api/papers` in the success case. -/
theorem createPaper_eq (db : DB) (author : SessionUser) (title metadata : String)
    (fileBuf : List Nat) (collaborators reviewers : List Email)
    (aesKey iv : Nat) (pid : String) (ts : Nat)
    (hcreate : checkAccess author.role "Paper" "create" = true)
    (htitle : title ≠ "") (hfile : fileBuf ≠ []) :
    createPaper db author title metadata fileBuf collaborators reviewers
        aesKey iv pid ts =
      (.ok pid,
       { db with papers :=
          (pid,
           { id := pid, title := title, metadata := metadata
             owner := author.email
             collaborators := collaborators, reviewers := reviewers
             versions := [{ ts := ts, enc := aesEncrypt fileBuf aesKey iv
                            hash := sha256 fileBuf }]
             encryptedKeys := buildEncryptedKeys db.users
               (jsDedup (author.email :: (collaborators ++ reviewers))) aesKey
             decision := none }) :: db.papers }) := by
  unfold createPaper
  rw [if_neg (by simp [hcreate]), if_neg (by simp [htitle, hfile])]

/-- C2: Hybrid round-trip: sealing a paper for its recipient set (owner,
collaborators, reviewers) and then reading it back as any registered
recipient `r`, with `r`'s private key, returns exactly the original
plaintext. -/
theorem seal_open_roundtrip (db : DB) (author : SessionUser)
    (title metadata : String) (fileBuf : List Nat)
    (collaborators reviewers : List Email) (aesKey iv : Nat) (pid : String)
    (ts : Nat) (r : Email) (rRole : String) (u : UserRec) (rPriv : PrivKey)
    (hcreate : checkAccess author.role "Paper" "create" = true)
    (htitle : title ≠ "") (hfile : fileBuf ≠ [])
    (hr : r ∈ author.email :: (collaborators ++ reviewers))
    (hu : db.users.lookup r = some u)
    (hkey : u.rsaPublicKey.keyId = rPriv.keyId)
    (hread : checkAccess rRole "Paper" "read" = true) :
    readPaper
        (createPaper db author title metadata fileBuf collaborators reviewers
          aesKey iv pid ts).2 ⟨r, rRole⟩ pid (some rPriv) =
      .ok { id := pid, title := title, metadata := metadata
            fileBase64 := fileBuf, hash := sha256 fileBuf } := by
  rw [createPaper_eq db author title metadata fileBuf collaborators reviewers
    aesKey iv pid ts hcreate htitle hfile]
  unfold readPaper
  rw [List.lookup]
  simp only [beq_self_eq_true]
  rw [if_neg (not_not.mpr hr)]
  rw [if_neg (by simp [hread])]
  rw [lookup_buildEncryptedKeys db.users _ aesKey r u hu (mem_jsDedup.mpr hr)]
  simp [rsaDecrypt_rsaEncrypt u.rsaPublicKey rPriv aesKey hkey, aesDecrypt_aesEncrypt]

/-- Witness for C2: a concrete DB with a registered author and collaborator;
the collaborator reads back the sealed bytes `[104, 105]`. -/
theorem seal_open_roundtrip_witness :
    readPaper
        (createPaper
          { users :=
              [("alice@x", { email := "alice@x", role := "Author"
                             passwordHash := hashPassword 11, rsaPublicKey := ⟨1⟩
                             failedLogins := 0, lockUntil := none }),
               ("bob@x", { email := "bob@x", role := "Collaborator"
                           passwordHash := hashPassword 22, rsaPublicKey := ⟨2⟩
                           failedLogins := 0, lockUntil := none })]
            papers := [] }
          ⟨"alice@x", "Author"⟩ "Title" "" [104, 105] ["bob@x"] []
          3 5 "p1" 0).2
        ⟨"bob@x", "Collaborator"⟩ "p1" (some ⟨2⟩) =
      .ok { id := "p1", title := "Title", metadata := ""
            fileBase64 := [104, 105], hash := sha256 [104, 105] } :=
  seal_open_roundtrip _ ⟨"alice@x", "Author"⟩ "Title" "" [104, 105] ["bob@x"] []
    3 5 "p1" 0 "bob@x" "Collaborator"
    { email := "bob@x", role := "Collaborator", passwordHash := hashPassword 22
      rsaPublicKey := ⟨2⟩, failedLogins := 0, lockUntil := none } ⟨2⟩
    (by decide) (by decide) (by decide) (by decide) (by decide) (by decide)
    (by decide)

/-- C3: Confidentiality boundary: an identity not in the recipient set
fixed when the paper was sealed receives the membership-denied error (403
'forbidden', logged as 'not a recipient'), which is distinct from the
object-not-found error, and the response never carries plaintext. -/
theorem confidentiality_boundary (db : DB) (author : SessionUser)
    (title metadata : String) (fileBuf : List Nat)
    (collaborators reviewers : List Email) (aesKey iv : Nat) (pid : String)
    (ts : Nat) (x : SessionUser) (xPriv : Option PrivKey)
    (hcreate : checkAccess author.role "Paper" "create" = true)
    (htitle : title ≠ "") (hfile : fileBuf ≠ [])
    (hx : x.email ∉ author.email :: (collaborators ++ reviewers)) :
    readPaper
        (createPaper db author title metadata fileBuf collaborators reviewers
          aesKey iv pid ts).2 x pid xPriv = .forbidden ∧
    ReadPaperResult.forbidden ≠ ReadPaperResult.notFound ∧
    ∀ body, readPaper
        (createPaper db author title metadata fileBuf collaborators reviewers
          aesKey iv pid ts).2 x pid xPriv ≠ .ok body := by
  rw [createPaper_eq db author title metadata fileBuf collaborators reviewers
    aesKey iv pid ts hcreate htitle hfile]
  have hres : readPaper
      { db with papers :=
          (pid,
           { id := pid, title := title, metadata := metadata
             owner := author.email
             collaborators := collaborators, reviewers := reviewers
             versions := [{ ts := ts, enc := aesEncrypt fileBuf aesKey iv
                            hash := sha256 fileBuf }]
             encryptedKeys := buildEncryptedKeys db.users
               (jsDedup (author.email :: (collaborators ++ reviewers))) aesKey
             decision := none }) :: db.papers } x pid xPriv = .forbidden := by
    unfold readPaper
    rw [List.lookup]
    simp only [beq_self_eq_true]
    rw [if_pos (by simpa using hx)]
  exact ⟨hres, by simp, fun body => by rw [hres]; simp⟩

/-- Witness for C3: user C, registered but not a recipient of the sealed
paper, gets `forbidden` and no plaintext. -/
theorem confidentiality_boundary_witness :
    readPaper
        (createPaper
          { users :=
              [("alice@x", { email := "alice@x", role := "Author"
                             passwordHash := hashPassword 11, rsaPublicKey := ⟨1⟩
                             failedLogins := 0, lockUntil := none }),
               ("carol@x", { email := "carol@x", role := "Reviewer"
                             passwordHash := hashPassword 33, rsaPublicKey := ⟨3⟩
                             failedLogins := 0, lockUntil := none })]
            papers := [] }
          ⟨"alice@x", "Author"⟩ "Title" "" [104, 105] [] [] 3 5 "p1" 0).2
        ⟨"carol@x", "Reviewer"⟩ "p1" (some ⟨3⟩) = .forbidden :=
  (confidentiality_boundary _ ⟨"alice@x", "Author"⟩ "Title" "" [104, 105] [] []
    3 5 "p1" 0 ⟨"carol@x", "Reviewer"⟩ (some ⟨3⟩)
    (by decide) (by decide) (by decide) (by decide)).1

/-- C5 counterexample: A listed recipient that is not a registered user
gets *no* wrapped-key entry: sealing a paper with collaborator "ghost@x"
absent from `DB.users` produces a wrapped-key map whose key set is
`["alice@x"]`, while "ghost@x" is in the paper's recipient list — the key set
does not equal the recipient set at encryption time. -/
theorem wrapped_key_map_missing_recipient :
    ((createPaper
        { users :=
            [("alice@x", { email := "alice@x", role := "Author"
                           passwordHash := hashPassword 11, rsaPublicKey := ⟨1⟩
                           failedLogins := 0, lockUntil := none })]
          papers := [] }
        ⟨"alice@x", "Author"⟩ "Title" "" [1] ["ghost@x"] [] 3 5 "p1" 0).2.papers.lookup
        "p1").map
        (fun p => (p.encryptedKeys.map Prod.fst, p.collaborators.contains "ghost@x")) =
      some (["alice@x"], true) ∧
    ¬ ("ghost@x" ∈ (["alice@x"] : List Email)) := by
  refine ⟨by decide, by decide⟩

/-- C5 amended: At each seal site the wrapped-key map's key set equals the
object's recipient set at encryption time restricted to *registered* users:
for papers (`POST /api/papers`) the deduplicated owner/collaborators/
reviewers list filtered to identities present in `DB.users`; for reviews
(`POST /api/papers/:id/reviews`) the owner/collaborators list likewise
filtered.  In both cases each such recipient has exactly one entry (the key
set is duplicate-free) and no one outside the recipient list has an entry. -/
theorem wrapped_key_map_amended :
    (∀ (db : DB) (author : SessionUser) (title metadata : String)
       (fileBuf : List Nat) (collaborators reviewers : List Email)
       (aesKey iv : Nat) (pid : String) (ts : Nat),
      checkAccess author.role "Paper" "create" = true → title ≠ "" →
      fileBuf ≠ [] →
      ((createPaper db author title metadata fileBuf collaborators reviewers
          aesKey iv pid ts).2.papers.lookup pid).map
          (fun p => p.encryptedKeys.map Prod.fst) =
        some ((jsDedup (author.email :: (collaborators ++ reviewers))).filter
          (fun r => (db.users.lookup r).isSome)) ∧
      ∀ p, (createPaper db author title metadata fileBuf collaborators
          reviewers aesKey iv pid ts).2.papers.lookup pid = some p →
        (p.encryptedKeys.map Prod.fst).Nodup)
    ∧ (∀ (db : DB) (reviews : List (String × Review)) (user : SessionUser)
         (pid : String) (paper : Paper) (revBuf : List Nat) (aesKey iv : Nat)
         (rid : String) (ts : Nat),
      db.papers.lookup pid = some paper →
      user.email ∈ paper.reviewers →
      checkAccess user.role "Review" "create" = true →
      (((createReview db reviews user pid revBuf aesKey iv rid ts).2.lookup
          rid).map (fun rv => rv.encryptedKeys.map Prod.fst) =
        some ((jsDedup (paper.owner :: paper.collaborators)).filter
          (fun r => (db.users.lookup r).isSome))) ∧
      ∀ rv, (createReview db reviews user pid revBuf aesKey iv rid
          ts).2.lookup rid = some rv →
        (rv.encryptedKeys.map Prod.fst).Nodup) := by
  constructor
  · intro db author title metadata fileBuf collaborators reviewers aesKey iv
      pid ts hcreate htitle hfile
    rw [createPaper_eq db author title metadata fileBuf collaborators reviewers
      aesKey iv pid ts hcreate htitle hfile]
    have hlook : (((.ok pid : CreatePaperResult),
        ({ db with papers :=
          (pid,
           { id := pid, title := title, metadata := metadata
             owner := author.email
             collaborators := collaborators, reviewers := reviewers
             versions := [{ ts := ts, enc := aesEncrypt fileBuf aesKey iv
                            hash := sha256 fileBuf }]
             encryptedKeys := buildEncryptedKeys db.users
               (jsDedup (author.email :: (collaborators ++ reviewers))) aesKey
             decision := none }) :: db.papers } : DB)).2.papers.lookup pid) =
        some { id := pid, title := title, metadata := metadata
               owner := author.email
               collaborators := collaborators, reviewers := reviewers
               versions := [{ ts := ts, enc := aesEncrypt fileBuf aesKey iv
                              hash := sha256 fileBuf }]
               encryptedKeys := buildEncryptedKeys db.users
                 (jsDedup (author.email :: (collaborators ++ reviewers))) aesKey
               decision := none } := by
      rw [List.lookup]
      simp
    rw [hlook]
    constructor
    · rw [Option.map_some']
      rw [keys_buildEncryptedKeys]
    · intro p hp
      rw [Option.some.injEq] at hp
      subst hp
      rw [keys_buildEncryptedKeys]
      exact (jsDedup_nodup _).filter _
  · intro db reviews user pid paper revBuf aesKey iv rid ts hp hrev hacl
    unfold createReview
    simp only [hp]
    rw [if_neg (not_not.mpr hrev), if_neg (by simp [hacl])]
    have hlook : ((((.ok rid : CreateReviewResult),
        ((rid,
          ({ id := rid, pid := pid, reviewBy := user.email
             enc := aesEncrypt revBuf aesKey iv, hash := sha256 revBuf
             encryptedKeys := buildEncryptedKeys db.users
               (jsDedup (paper.owner :: paper.collaborators)) aesKey
             ts := ts } : Review)) :: reviews)).2).lookup rid) =
        some { id := rid, pid := pid, reviewBy := user.email
               enc := aesEncrypt revBuf aesKey iv, hash := sha256 revBuf
               encryptedKeys := buildEncryptedKeys db.users
                 (jsDedup (paper.owner :: paper.collaborators)) aesKey
               ts := ts } := by
      rw [List.lookup]
      simp
    rw [hlook]
    constructor
    · rw [Option.map_some']
      rw [keys_buildEncryptedKeys]
    · intro rv hrv
      rw [Option.some.injEq] at hrv
      subst hrv
      rw [keys_buildEncryptedKeys]
      exact (jsDedup_nodup _).filter _

/-- Witness for C5 (amended) at a concrete DB: at the paper seal site only
the registered collaborator appears in the key set, once; at the review seal
site the assigned reviewer's review is wrapped for the registered owner but
not the unregistered collaborator. -/
theorem wrapped_key_map_amended_witness :
    (((createPaper
        { users :=
            [("alice@x", { email := "alice@x", role := "Author"
                           passwordHash := hashPassword 11, rsaPublicKey := ⟨1⟩
                           failedLogins := 0, lockUntil := none }),
             ("bob@x", { email := "bob@x", role := "Collaborator"
                         passwordHash := hashPassword 22, rsaPublicKey := ⟨2⟩
                         failedLogins := 0, lockUntil := none })]
          papers := [] }
        ⟨"alice@x", "Author"⟩ "Title" "" [1] ["bob@x", "ghost@x"] [] 3 5 "p1"
        0).2.papers.lookup "p1").map (fun p => p.encryptedKeys.map Prod.fst) =
      some ((jsDedup ("alice@x" :: (["bob@x", "ghost@x"] ++ []))).filter
        (fun r =>
          ((([("alice@x", { email := "alice@x", role := "Author"
                            passwordHash := hashPassword 11, rsaPublicKey := ⟨1⟩
                            failedLogins := 0, lockUntil := none }),
              ("bob@x", { email := "bob@x", role := "Collaborator"
                          passwordHash := hashPassword 22, rsaPublicKey := ⟨2⟩
                          failedLogins := 0, lockUntil := none })]) :
            List (Email × UserRec)).lookup r).isSome))) ∧
    (((createReview
        { users :=
            [("alice@x", { email := "alice@x", role := "Author"
                           passwordHash := hashPassword 11, rsaPublicKey := ⟨1⟩
                           failedLogins := 0, lockUntil := none })]
          papers :=
            [("p1", { id := "p1", title := "T", metadata := ""
                      owner := "alice@x", collaborators := ["ghost@x"]
                      reviewers := ["rev@x"], versions := []
                      encryptedKeys := [], decision := none })] }
        [] ⟨"rev@x", "Reviewer"⟩ "p1" [9] 3 5 "r1" 0).2.lookup "r1").map
        (fun rv => rv.encryptedKeys.map Prod.fst) =
      some ((jsDedup ("alice@x" :: ["ghost@x"])).filter
        (fun r =>
          ((([("alice@x", { email := "alice@x", role := "Author"
                            passwordHash := hashPassword 11, rsaPublicKey := ⟨1⟩
                            failedLogins := 0, lockUntil := none })]) :
            List (Email × UserRec)).lookup r).isSome))) :=
  ⟨(wrapped_key_map_amended.1 _ ⟨"alice@x", "Author"⟩ "Title" "" [1]
      ["bob@x", "ghost@x"] [] 3 5 "p1" 0 (by decide) (by decide) (by decide)).1,
   (wrapped_key_map_amended.2 _ [] ⟨"rev@x", "Reviewer"⟩ "p1"
      { id := "p1", title := "T", metadata := "", owner := "alice@x"
        collaborators := ["ghost@x"], reviewers := ["rev@x"], versions := []
        encryptedKeys := [], decision := none }
      [9] 3 5 "r1" 0 (by decide) (by decide) (by decide)).1⟩

/-- C4 counterexample: In the server implementation only the decision
*text* is signed: storing a decision signed at timestamp 100 and then
altering the stored record's timestamp to 999 still verifies — `GET
/api/papers/:id/decision` reports `signature_valid = true` for a stored
decision whose attested timestamp differs from what was signed. -/
theorem decision_signature_ts_not_attested :
    getDecision
        (setPaper
          (postDecision
            { users :=
                [("carol@x", { email := "carol@x", role := "Collaborator"
                               passwordHash := hashPassword 1, rsaPublicKey := ⟨9⟩
                               failedLogins := 0, lockUntil := none })]
              papers :=
                [("p1", { id := "p1", title := "T", metadata := ""
                          owner := "alice@x", collaborators := ["carol@x"]
                          reviewers := [], versions := [], encryptedKeys := []
                          decision := none })] }
            ⟨"carol@x", "Collaborator"⟩ "p1" "Accept" (some ⟨9⟩) 100).2
          "p1"
          { id := "p1", title := "T", metadata := "", owner := "alice@x"
            collaborators := ["carol@x"], reviewers := [], versions := []
            encryptedKeys := []
            decision := some { decidedBy := "carol@x", decisionText := "Accept"
                               hash := sha256 (strBytes "Accept")
                               signature := sign ⟨9⟩ (strBytes "Accept")
                               ts := 999 } })
        ⟨"alice@x", "Author"⟩ "p1" =
      .ok { decidedBy := "carol@x", decisionText := "Accept"
            hash := sha256 (strBytes "Accept")
            signature := sign ⟨9⟩ (strBytes "Accept"), ts := 999 } true ∧
    (999 : Nat) ≠ 100 := by
  refine ⟨by decide, by decide⟩

/-- C4 amended: In the server implementation the signed data is a
deterministic serialization of the decision text alone; verification
reconstructs it from the *stored* decision text, so `signature_valid` is true
exactly when the stored text equals the text that was signed — changing the
stored text falsifies verification, while the stored outcome and timestamp
are not attested and do not affect it. -/
theorem decision_signature_amended (db : DB) (user : SessionUser) (pid : String)
    (paper : Paper) (dec : Decision) (u : UserRec) (sk : PrivKey)
    (origText : String)
    (hp : db.papers.lookup pid = some paper)
    (hd : paper.decision = some dec)
    (hrole : checkAccess user.role "FinalDecision" "read" = true)
    (hu : db.users.lookup dec.decidedBy = some u)
    (hsig : dec.signature = sign sk (strBytes origText))
    (hk : sk.keyId = u.rsaPublicKey.keyId) :
    getDecision db user pid = .ok dec (decide (dec.decisionText = origText)) := by
  have hv : verify u.rsaPublicKey (strBytes dec.decisionText)
      (sign sk (strBytes origText)) = decide (dec.decisionText = origText) := by
    unfold verify sign
    simp only [hk, beq_self_eq_true, Bool.true_and]
    by_cases h : dec.decisionText = origText
    · simp [h]
    · have hne : strBytes origText ≠ strBytes dec.decisionText :=
        fun hc => h (strBytes_injective hc).symm
      simp [h, beq_eq_false_iff_ne.mpr hne]
  unfold getDecision
  simp [hp, hd, hrole, hu, hsig, hv]

/-- Witness for C4 (amended) at a concrete DB: an untampered stored text
verifies as `true`. -/
theorem decision_signature_amended_witness :
    getDecision
        { users :=
            [("dave@x", { email := "dave@x", role := "Collaborator"
                          passwordHash := hashPassword 2, rsaPublicKey := ⟨6⟩
                          failedLogins := 0, lockUntil := none })]
          papers :=
            [("q1", { id := "q1", title := "U", metadata := ""
                      owner := "erin@x", collaborators := ["dave@x"]
                      reviewers := [], versions := [], encryptedKeys := []
                      decision := some { decidedBy := "dave@x"
                                         decisionText := "Reject"
                                         hash := sha256 (strBytes "Reject")
                                         signature := sign ⟨6⟩ (strBytes "Reject")
                                         ts := 55 } })] }
        ⟨"erin@x", "Author"⟩ "q1" =
      .ok { decidedBy := "dave@x", decisionText := "Reject"
            hash := sha256 (strBytes "Reject")
            signature := sign ⟨6⟩ (strBytes "Reject"), ts := 55 }
        (decide (("Reject" : String) = "Reject")) :=
  decision_signature_amended
    { users :=
        [("dave@x", { email := "dave@x", role := "Collaborator"
                      passwordHash := hashPassword 2, rsaPublicKey := ⟨6⟩
                      failedLogins := 0, lockUntil := none })]
      papers :=
        [("q1", { id := "q1", title := "U", metadata := ""
                  owner := "erin@x", collaborators := ["dave@x"]
                  reviewers := [], versions := [], encryptedKeys := []
                  decision :=
                    some { decidedBy := "dave@x", decisionText := "Reject"
                           hash := sha256 (strBytes "Reject")
                           signature := sign ⟨6⟩ (strBytes "Reject")
                           ts := 55 } })] }
    ⟨"erin@x", "Author"⟩ "q1"
    { id := "q1", title := "U", metadata := "", owner := "erin@x"
      collaborators := ["dave@x"], reviewers := [], versions := []
      encryptedKeys := []
      decision := some { decidedBy := "dave@x", decisionText := "Reject"
                         hash := sha256 (strBytes "Reject")
                         signature := sign ⟨6⟩ (strBytes "Reject"), ts := 55 } }
    { decidedBy := "dave@x", decisionText := "Reject"
      hash := sha256 (strBytes "Reject")
      signature := sign ⟨6⟩ (strBytes "Reject"), ts := 55 }
    { email := "dave@x", role := "Collaborator", passwordHash := hashPassword 2
      rsaPublicKey := ⟨6⟩, failedLogins := 0, lockUntil := none } ⟨6⟩ "Reject"
    (by decide) (by decide) (by decide) (by decide) (by decide) (by decide)

/-- C9 counterexample: A decision is *not* immutable once created: a
second `makeDecision` for the same paper updates the existing Decision
document in place (`Decision.findByIdAndUpdate`) — the record keeps id 1 but
its outcome, summary, signature and timestamp are all replaced, and no
superseding record is added. -/
theorem decision_mutated_in_place :
    makeDecision [] "p1" "ACCEPTED" "Solid results" "ed@x" ⟨4⟩ 10 10 1 =
      [{ id := 1, paperId := "p1", decision := "ACCEPTED"
         summary := "Solid results", editorEmail := "ed@x"
         signature := sign ⟨4⟩ (decisionDataToSign "p1" "ACCEPTED" "Solid results" 10)
         decidedAt := 10 }] ∧
    makeDecision
        [{ id := 1, paperId := "p1", decision := "ACCEPTED"
           summary := "Solid results", editorEmail := "ed@x"
           signature := sign ⟨4⟩ (decisionDataToSign "p1" "ACCEPTED" "Solid results" 10)
           decidedAt := 10 }]
        "p1" "REJECTED" "Weak results" "ed@x" ⟨4⟩ 20 20 2 =
      [{ id := 1, paperId := "p1", decision := "REJECTED"
         summary := "Weak results", editorEmail := "ed@x"
         signature := sign ⟨4⟩ (decisionDataToSign "p1" "REJECTED" "Weak results" 20)
         decidedAt := 20 }] ∧
    ("REJECTED" : String) ≠ "ACCEPTED" := by
  refine ⟨by decide, by decide, by decide⟩

/-- C9 amended: A later decision for a paper that already has one does
not create a superseding record: it overwrites the existing Decision
document in place — the collection keeps its length, every document for a
different id is untouched, and every document carrying the existing
decision's id now holds the new outcome, trimmed summary, signer, signature
and timestamp. -/
theorem decision_overwrite_amended (ds : List DecisionDoc)
    (pid outcome summary : String) (editor : Email) (sk : PrivKey)
    (tStore tSign freshId : Nat) (existing : DecisionDoc)
    (h : findOneByPaper ds pid = some existing) :
    (makeDecision ds pid outcome summary editor sk tStore tSign freshId).length =
      ds.length ∧
    (∀ d ∈ ds, d.id ≠ existing.id →
      d ∈ makeDecision ds pid outcome summary editor sk tStore tSign freshId) ∧
    (∀ d' ∈ makeDecision ds pid outcome summary editor sk tStore tSign freshId,
      d'.id = existing.id →
      d'.decision = outcome ∧ d'.summary = trimStr summary ∧
      d'.editorEmail = editor ∧ d'.decidedAt = tStore ∧
      d'.signature = sign sk (decisionDataToSign pid outcome summary tSign)) := by
  unfold makeDecision
  rw [h]
  refine ⟨List.length_map _ _, ?_, ?_⟩
  · intro d hd hne
    exact List.mem_map.mpr ⟨d, hd, by rw [if_neg hne]⟩
  · intro d' hd' hid
    obtain ⟨d, hd, heq⟩ := List.mem_map.mp hd'
    by_cases hdid : d.id = existing.id
    · rw [if_pos hdid] at heq
      subst heq
      exact ⟨rfl, rfl, rfl, rfl, rfl⟩
    · rw [if_neg hdid] at heq
      subst heq
      exact absurd hid hdid

/-- Witness for C9 (amended) at a concrete decision collection. -/
theorem decision_overwrite_amended_witness :
    (makeDecision
        [{ id := 7, paperId := "p2", decision := "ACCEPTED", summary := "Fine"
           editorEmail := "ed@x"
           signature := sign ⟨4⟩ (decisionDataToSign "p2" "ACCEPTED" "Fine" 1)
           decidedAt := 1 }]
        "p2" "REJECTED" "Nope" "ed2@x" ⟨4⟩ 2 2 8).length = 1 :=
  (decision_overwrite_amended
    [{ id := 7, paperId := "p2", decision := "ACCEPTED", summary := "Fine"
       editorEmail := "ed@x"
       signature := sign ⟨4⟩ (decisionDataToSign "p2" "ACCEPTED" "Fine" 1)
       decidedAt := 1 }]
    "p2" "REJECTED" "Nope" "ed2@x" ⟨4⟩ 2 2 8
    { id := 7, paperId := "p2", decision := "ACCEPTED", summary := "Fine"
      editorEmail := "ed@x"
      signature := sign ⟨4⟩ (decisionDataToSign "p2" "ACCEPTED" "Fine" 1)
      decidedAt := 1 }
    (by decide)).1

/-- C10: Login lockout: (1) five consecutive failed password attempts on
a fresh account leave `failedLogins = 5` and a lockout until the fifth
attempt's time plus 15 minutes; (2) while the lockout is active every login
attempt — the password argument is universally quantified, so the password is
never consulted — is rejected as locked with the account unchanged; (3) a
successful login resets the failed-attempt counter to 0 and clears the
lockout. -/
theorem login_lockout :
    (∀ (u : UserRec) (p1 p2 p3 p4 p5 t1 t2 t3 t4 t5 : Nat),
      u.failedLogins = 0 → u.lockUntil = none →
      verifyPassword p1 u.passwordHash = false →
      verifyPassword p2 u.passwordHash = false →
      verifyPassword p3 u.passwordHash = false →
      verifyPassword p4 u.passwordHash = false →
      verifyPassword p5 u.passwordHash = false →
      runLogin u [(p1, t1), (p2, t2), (p3, t3), (p4, t4), (p5, t5)] =
        { u with failedLogins := 5, lockUntil := some (t5 + 15 * 60 * 1000) })
    ∧ (∀ (u : UserRec) (pw now t : Nat), u.lockUntil = some t → now < t →
        login u pw now = (.locked, u))
    ∧ (∀ (u : UserRec) (pw now : Nat),
        (match u.lockUntil with
         | some t => decide (now < t)
         | none => false) = false →
        verifyPassword pw u.passwordHash = true →
        login u pw now = (.ok, { u with failedLogins := 0, lockUntil := none })) := by
  refine ⟨?_, ?_, ?_⟩
  · intro u p1 p2 p3 p4 p5 t1 t2 t3 t4 t5 h0 hlock hw1 hw2 hw3 hw4 hw5
    simp [runLogin, login, h0, hlock, hw1, hw2, hw3, hw4, hw5]
  · intro u pw now t hlock hnow
    unfold login
    rw [if_pos (by rw [hlock]; exact decide_eq_true hnow)]
  · intro u pw now hnolock hpw
    unfold login
    rw [if_neg (by rw [hnolock]; exact Bool.false_ne_true), if_neg (by simp [hpw])]

/-- Witness for C10: a concrete user, five wrong passwords, then a rejected
correct-password attempt during the lockout window, then a successful login
resetting the counters. -/
theorem login_lockout_witness :
    runLogin
        { email := "u@x", role := "Author", passwordHash := hashPassword 42
          rsaPublicKey := ⟨1⟩, failedLogins := 0, lockUntil := none }
        [(1, 0), (2, 1), (3, 2), (4, 3), (5, 4)] =
      { email := "u@x", role := "Author", passwordHash := hashPassword 42
        rsaPublicKey := ⟨1⟩, failedLogins := 5
        lockUntil := some (4 + 15 * 60 * 1000) } ∧
    login
        { email := "u@x", role := "Author", passwordHash := hashPassword 42
          rsaPublicKey := ⟨1⟩, failedLogins := 5
          lockUntil := some (4 + 15 * 60 * 1000) } 42 1000 =
      (.locked,
       { email := "u@x", role := "Author", passwordHash := hashPassword 42
         rsaPublicKey := ⟨1⟩, failedLogins := 5
         lockUntil := some (4 + 15 * 60 * 1000) }) ∧
    login
        { email := "u@x", role := "Author", passwordHash := hashPassword 42
          rsaPublicKey := ⟨1⟩, failedLogins := 5
          lockUntil := some (4 + 15 * 60 * 1000) } 42 (4 + 15 * 60 * 1000) =
      (.ok,
       { email := "u@x", role := "Author", passwordHash := hashPassword 42
         rsaPublicKey := ⟨1⟩, failedLogins := 0, lockUntil := none }) :=
  ⟨login_lockout.1
     { email := "u@x", role := "Author", passwordHash := hashPassword 42
       rsaPublicKey := ⟨1⟩, failedLogins := 0, lockUntil := none }
     1 2 3 4 5 0 1 2 3 4 rfl rfl (by decide) (by decide) (by decide) (by decide)
     (by decide),
   login_lockout.2.1
     { email := "u@x", role := "Author", passwordHash := hashPassword 42
       rsaPublicKey := ⟨1⟩, failedLogins := 5
       lockUntil := some (4 + 15 * 60 * 1000) }
     42 1000 (4 + 15 * 60 * 1000) rfl (by norm_num),
   login_lockout.2.2
     { email := "u@x", role := "Author", passwordHash := hashPassword 42
       rsaPublicKey := ⟨1⟩, failedLogins := 5
       lockUntil := some (4 + 15 * 60 * 1000) }
     42 (4 + 15 * 60 * 1000) (by norm_num) (by decide)⟩

end Portal
